import Mathlib

/-!
Shallow embedding of detect_secrets_server/repos/base_tracked_repo.py:
the tracked-repository lifecycle state machine (scan / update / save /
load_from_file) of class BaseTrackedRepo, together with its override
policy enum OverrideLevel.

The storage adapter (detect_secrets_server.storage.file.FileStorage) and
the plugin codec (detect_secrets_server.plugins.PluginsConfigParser) are
part of this repository but their code is not available here; they are
modelled from the spec where marked.  The scan engine (the external
detect_secrets package) is modelled at its interface boundary, as the
spec prescribes.

Conventions of the embedding:
* Python exceptions become an explicit error type: operations return
  Except RepoError.  Accessing self.storage when the constructor never
  set it raises in Python (spec name: NotInitializedError); here the
  handle is an Option and the none case returns that error.
* The mutable object is passed and returned explicitly: scan returns the
  findings together with the possibly-updated record, save returns the
  flag together with the possibly-updated store.
* Findings collections are finite sets over an abstract finding type.
* The dict written by save (the persisted record) is an association list
  of field name to field value, mirroring the Python dict literal of the
  overridden property named dict in the source.
-/

namespace DetectSecretsServer

/-- The override policy enum of the source (OverrideLevel). -/
inductive OverrideLevel where
  | NEVER
  | ASK_USER
  | ALWAYS
deriving DecidableEq, Repr

/-- Errors surfaced by the operations of BaseTrackedRepo.
calledProcessError models subprocess.CalledProcessError,
fileNotFoundError models the missing tracked file on load,
notInitializedError models use of the storage handle on a record
constructed without one (Python raises on the attribute access),
badRecord models a persisted blob from which the constructor keyword
arguments cannot be extracted. -/
inductive RepoError where
  | notInitializedError
  | calledProcessError
  | fileNotFoundError
  | badRecord
deriving DecidableEq, Repr

/-- Modelled from the spec:
"PersistenceAdapter: hashName(name) -> key (deterministic,
collision-resistant for distinct names)".  The concrete FileStorage
hash_filename (a sha512 hex digest) is not under src/; any injective
deterministic function is a faithful model of the properties the core
relies on. -/
def hash_filename (s : String) : String := "sha512:" ++ s

/-- The storage handle, as returned by setup of the storage class: it
is bound to the base directory and to the repo it was set up for. -/
structure StorageHandle where
  base_directory : String
  repo_url : String
deriving DecidableEq, Repr

/-- Modelled from the spec:
"displayName() -> string (human-readable repository name, distinct from
storage key)" together with the invariant that the identity determines
the persistence key: per sections 4.1 and 4.2 of the spec both Save and
Load compute "the storage key for identity", so the name the handle
reports hashes to the same key as the identity itself.  The concrete
repository_name property of the storage classes is not under src/. -/
def StorageHandle.repository_name (st : StorageHandle) : String :=
  st.repo_url

/-- A value of one field of the persisted dict: every field is a string
except the plugins field, which holds a plugin configuration (compact
form C when persisted, decoded form after load). -/
inductive FieldValue (C : Type) where
  | str : String → FieldValue C
  | cfg : C → FieldValue C
deriving DecidableEq, Repr

/-- Apply a function to the configuration payload of a field value. -/
def FieldValue.mapCfg {C C2 : Type} (f : C → C2) :
    FieldValue C → FieldValue C2
  | .str s => .str s
  | .cfg c => .cfg (f c)

/-- The tracked-file store: the files the storage adapter keeps under
hashed names, each holding one persisted dict.  Models both the
os.path.isfile existence check and the get and put calls of the
source. -/
def Store (C : Type) : Type := String → Option (List (String × FieldValue C))

/-- Write one tracked file (storage.put of the source). -/
def Store.put {C : Type} (store : Store C) (key : String)
    (v : List (String × FieldValue C)) : Store C :=
  fun k => if k = key then some v else store k

/-- The in-memory tracked repository: the attributes set by the
constructor of BaseTrackedRepo.  Cfg is the in-memory plugin
configuration type (the to_args form). -/
structure BaseTrackedRepo (Cfg : Type) where
  last_commit_hash : String
  repo : String
  crontab : String
  plugin_config : Cfg
  baseline_filename : String
  exclude_regex : String
  storage : Option StorageHandle
deriving DecidableEq, Repr

/-- The constructor of BaseTrackedRepo: stores the fields, and sets the
storage handle only when base_temp_dir is truthy (Python: if
base_temp_dir:), so both an omitted argument and an empty string leave
the handle unset. -/
def BaseTrackedRepo.mk_repo {Cfg : Type} (repo sha : String) (plugins : Cfg)
    (baseline_filename exclude_regex cron : String)
    (base_temp_dir : Option String) : BaseTrackedRepo Cfg :=
  { last_commit_hash := sha
    repo := repo
    crontab := cron
    plugin_config := plugins
    baseline_filename := baseline_filename
    exclude_regex := exclude_regex
    storage :=
      match base_temp_dir with
      | some d => if d = "" then none else some ⟨d, repo⟩
      | none => none }

/-- The name property of the source: self.storage.repository_name.
Fails when the handle was never set. -/
def BaseTrackedRepo.name {Cfg : Type} (r : BaseTrackedRepo Cfg) :
    Except RepoError String :=
  match r.storage with
  | none => .error .notInitializedError
  | some st => .ok st.repository_name

/-- The behaviour of the adapters during one scan cycle, over an
abstract finding type F and plugin configuration type Cfg:
clone_ok is whether clone_and_pull_master succeeds; head_commit is what
get_last_commit_hash reports; diff_since models get_diff, none being the
subprocess.CalledProcessError case; baseline_file models
get_baseline_file (content of the baseline file at head, none when
absent); scan_diff models the scan engine run over a diff, taking the
plugin configuration, the exclude regex, the diff, and the provenance
tags baseline_filename, last_commit_hash and repo name; load_baseline
models SecretsCollection.load_baseline_from_string.  The set difference
get_secrets_not_in_baseline of the engine is modelled as finite-set
difference, per the spec: "compute set difference: findings minus
baseline". -/
structure ScanEnv (F : Type) (Cfg : Type) where
  clone_ok : Bool
  head_commit : String
  diff_since : String → Option String
  baseline_file : String → Option String
  scan_diff : Cfg → String → String → String → String → String → Finset F
  load_baseline : String → Finset F

/-- The update method of the source: overwrite last_commit_hash with the
current head commit from the storage handle. -/
def BaseTrackedRepo.update {F Cfg : Type} (env : ScanEnv F Cfg)
    (r : BaseTrackedRepo Cfg) : Except RepoError (BaseTrackedRepo Cfg) :=
  match r.storage with
  | none => .error .notInitializedError
  | some _ => .ok { r with last_commit_hash := env.head_commit }

/-- The scan method of the source: pull the clone up to date (failures
propagate), build an empty findings collection, diff since the stored
checkpoint; when the diff fails, self-heal by advancing the checkpoint
and returning the empty collection; otherwise scan the diff, and when a
truthy baseline file exists at head, subtract the decoded baseline.
(The source binds the scanned collection once as secrets; here the
application is repeated verbatim in each branch.) -/
def BaseTrackedRepo.scan {F Cfg : Type} [DecidableEq F]
    (env : ScanEnv F Cfg) (r : BaseTrackedRepo Cfg) :
    Except RepoError (Finset F × BaseTrackedRepo Cfg) :=
  match r.storage with
  | none => .error .notInitializedError
  | some st =>
    match env.clone_ok with
    | false => .error .calledProcessError
    | true =>
      match env.diff_since r.last_commit_hash with
      | none =>
        .ok (∅, { r with last_commit_hash := env.head_commit })
      | some diff =>
        match env.baseline_file r.baseline_filename with
        | none =>
          .ok (env.scan_diff r.plugin_config r.exclude_regex diff
            r.baseline_filename r.last_commit_hash st.repository_name, r)
        | some b =>
          if b = "" then
            .ok (env.scan_diff r.plugin_config r.exclude_regex diff
              r.baseline_filename r.last_commit_hash st.repository_name, r)
          else
            .ok (env.scan_diff r.plugin_config r.exclude_regex diff
              r.baseline_filename r.last_commit_hash st.repository_name \
              env.load_baseline b, r)

/-- The persisted dict of the source (the overridden property named
dict): exactly the six constructor fields, the plugin configuration
encoded to its compact form C (PluginsConfigParser.from_args(...)
.to_config()). -/
def BaseTrackedRepo.dict {Cfg C : Type} (encode : Cfg → C)
    (r : BaseTrackedRepo Cfg) : List (String × FieldValue C) :=
  [("sha", .str r.last_commit_hash),
   ("repo", .str r.repo),
   ("plugins", .cfg (encode r.plugin_config)),
   ("cron", .str r.crontab),
   ("baseline_filename", .str r.baseline_filename),
   ("exclude_regex", .str r.exclude_regex)]

/-- The save method of the source: check for an existing tracked file at
the hashed name; if present, NEVER declines, ASK_USER consults the
prompt (modelled as the boolean ask_answer); otherwise put the dict
under the hashed name and report success. -/
def BaseTrackedRepo.save {Cfg C : Type} (encode : Cfg → C)
    (ask_answer : Bool) (override_level : OverrideLevel) (store : Store C)
    (r : BaseTrackedRepo Cfg) : Except RepoError (Bool × Store C) :=
  match r.storage with
  | none => .error .notInitializedError
  | some st =>
    if (store (hash_filename st.repository_name)).isSome then
      if override_level = .NEVER then .ok (false, store)
      else if override_level = .ASK_USER && !ask_answer then
        .ok (false, store)
      else
        .ok (true, store.put (hash_filename st.repository_name)
          (r.dict encode))
    else
      .ok (true, store.put (hash_filename st.repository_name)
        (r.dict encode))

/-- Look up a string-valued field of a persisted dict. -/
def getStr {C : Type} (data : List (String × FieldValue C)) (k : String) :
    Option String :=
  match data.lookup k with
  | some (.str s) => some s
  | _ => none

/-- Look up the configuration-valued field of a persisted dict. -/
def getCfg {C : Type} (data : List (String × FieldValue C)) (k : String) :
    Option C :=
  match data.lookup k with
  | some (.cfg c) => some c
  | _ => none

/-- The modify_tracked_file_contents classmethod of the source: replace
the plugins entry of the loaded dict by its decoded form
(PluginsConfigParser.from_config(...).to_args()).  In the persisted
layout only the plugins key carries a configuration value, so decoding
every configuration payload is the same transform. -/
def modify_tracked_file_contents {Cfg C : Type} (decode : C → Cfg)
    (data : List (String × FieldValue C)) : List (String × FieldValue Cfg) :=
  data.map (fun p => (p.1, p.2.mapCfg decode))

/-- Python cls(**data): extract the constructor keyword arguments from
the transformed dict and construct the record (no base_temp_dir key is
persisted, so the handle stays unset at this point). -/
def fromDict {Cfg : Type} (data : List (String × FieldValue Cfg)) :
    Option (BaseTrackedRepo Cfg) :=
  match getStr data "sha", getStr data "repo", getCfg data "plugins",
      getStr data "cron", getStr data "baseline_filename",
      getStr data "exclude_regex" with
  | some sha, some repo, some plugins, some cron, some bf, some er =>
    some (BaseTrackedRepo.mk_repo repo sha plugins bf er cron none)
  | _, _, _, _, _, _ => none

/-- The load_from_file classmethod of the source: get the blob under the
hashed repo_name (missing file is an error and nothing is constructed),
run it through modify_tracked_file_contents, construct the record, then
set its storage handle up for the loaded repo field against the same
base directory. -/
def load_from_file {Cfg C : Type} (decode : C → Cfg) (repo_name : String)
    (base_directory : String) (store : Store C) :
    Except RepoError (BaseTrackedRepo Cfg) :=
  match store (hash_filename repo_name) with
  | none => .error .fileNotFoundError
  | some data =>
    match fromDict (modify_tracked_file_contents decode data) with
    | none => .error .badRecord
    | some output =>
      .ok { output with storage := some ⟨base_directory, output.repo⟩ }

/-! Concrete fixtures used by the witnesses. -/

/-- A concrete tracked repository with an initialized storage handle. -/
def rW : BaseTrackedRepo Nat :=
  BaseTrackedRepo.mk_repo "repoA" "c1" 7 "baseline" "ex" "cron" (some "/tmp")

/-- An adapter behaviour in which the stored checkpoint is unreachable:
every diff request fails. -/
def envHeal : ScanEnv Nat Nat :=
  { clone_ok := true
    head_commit := "c2"
    diff_since := fun _ => none
    baseline_file := fun _ => none
    scan_diff := fun _ _ _ _ _ _ => ∅
    load_baseline := fun _ => ∅ }

/-- An adapter behaviour in which the diff succeeds, scanning finds the
findings 1, 2, 3 and the baseline file decodes to the single finding
2. -/
def envOk : ScanEnv Nat Nat :=
  { clone_ok := true
    head_commit := "c2"
    diff_since := fun _ => some "d"
    baseline_file := fun _ => some "B"
    scan_diff := fun _ _ _ _ _ _ => {1, 2, 3}
    load_baseline := fun b => if b = "B" then {2} else ∅ }

/-- A store holding one tracked file, under the key of rW. -/
def storeW : Store Nat :=
  fun k => if k = hash_filename "repoA" then some [] else none

/-- C1: for a record with an initialized handle whose checkpoint is not
reachable (the diff computation fails) under a successful pull, scan
returns an empty findings collection, afterwards last_commit_hash
equals the adapter's current head commit, and the diff failure is not
propagated to the caller (the result is ok, not an error). -/
theorem claim_C1_self_healing {F Cfg : Type} [DecidableEq F]
    (env : ScanEnv F Cfg) (r : BaseTrackedRepo Cfg) (st : StorageHandle)
    (hs : r.storage = some st) (hc : env.clone_ok = true)
    (hd : env.diff_since r.last_commit_hash = none) :
    r.scan env = .ok (∅, { r with last_commit_hash := env.head_commit }) := by
  simp [BaseTrackedRepo.scan, hs, hc, hd]

/-- Witness for C1 at the concrete fixture. -/
theorem claim_C1_self_healing_witness :
    rW.scan envHeal =
      .ok ((∅ : Finset Nat), { rW with last_commit_hash := envHeal.head_commit }) :=
  claim_C1_self_healing envHeal rW ⟨"/tmp", "repoA"⟩ (by decide) rfl rfl

/-- C4: a scan call that succeeds and does not take the
unreachable-commit branch leaves the record unchanged, in particular
last_commit_hash. -/
theorem claim_C4_scan_no_mutation {F Cfg : Type} [DecidableEq F]
    (env : ScanEnv F Cfg) (r : BaseTrackedRepo Cfg) (st : StorageHandle)
    (d : String)
    (hs : r.storage = some st) (hc : env.clone_ok = true)
    (hd : env.diff_since r.last_commit_hash = some d) :
    ∃ f, r.scan env = .ok (f, r) := by
  cases hb : env.baseline_file r.baseline_filename with
  | none =>
    exact ⟨env.scan_diff r.plugin_config r.exclude_regex d r.baseline_filename
      r.last_commit_hash st.repository_name,
      by simp [BaseTrackedRepo.scan, hs, hc, hd, hb]⟩
  | some b =>
    by_cases hbe : b = ""
    · exact ⟨env.scan_diff r.plugin_config r.exclude_regex d r.baseline_filename
        r.last_commit_hash st.repository_name,
        by simp [BaseTrackedRepo.scan, hs, hc, hd, hb, hbe]⟩
    · exact ⟨env.scan_diff r.plugin_config r.exclude_regex d r.baseline_filename
        r.last_commit_hash st.repository_name \ env.load_baseline b,
        by simp [BaseTrackedRepo.scan, hs, hc, hd, hb, hbe]⟩

/-- Witness for C4 at the concrete fixture. -/
theorem claim_C4_scan_no_mutation_witness :
    ∃ f, rW.scan envOk = .ok (f, rW) :=
  claim_C4_scan_no_mutation envOk rW ⟨"/tmp", "repoA"⟩ "d" (by decide) rfl rfl

/-- C5: on the successful-diff path, when the baseline file at head is
present and non-empty scan returns the scanned findings minus the
decoded baseline collection; when the baseline file is absent, or
present but empty, scan returns the raw scanned findings with no
difference step. -/
theorem claim_C5_baseline_filtering {F Cfg : Type} [DecidableEq F]
    (env : ScanEnv F Cfg) (r : BaseTrackedRepo Cfg) (st : StorageHandle)
    (d : String)
    (hs : r.storage = some st) (hc : env.clone_ok = true)
    (hd : env.diff_since r.last_commit_hash = some d) :
    (∀ b, env.baseline_file r.baseline_filename = some b → b ≠ "" →
      r.scan env = .ok
        (env.scan_diff r.plugin_config r.exclude_regex d r.baseline_filename
          r.last_commit_hash st.repository_name \ env.load_baseline b, r)) ∧
    (env.baseline_file r.baseline_filename = none →
      r.scan env = .ok
        (env.scan_diff r.plugin_config r.exclude_regex d r.baseline_filename
          r.last_commit_hash st.repository_name, r)) ∧
    (env.baseline_file r.baseline_filename = some "" →
      r.scan env = .ok
        (env.scan_diff r.plugin_config r.exclude_regex d r.baseline_filename
          r.last_commit_hash st.repository_name, r)) := by
  refine ⟨?_, ?_, ?_⟩
  · intro b hb hbe
    simp [BaseTrackedRepo.scan, hs, hc, hd, hb, hbe]
  · intro hb
    simp [BaseTrackedRepo.scan, hs, hc, hd, hb]
  · intro hb
    simp [BaseTrackedRepo.scan, hs, hc, hd, hb]

/-- Witness for C5: findings 1, 2, 3 against baseline 2 yield 1, 3. -/
theorem claim_C5_baseline_filtering_witness :
    rW.scan envOk = .ok (({1, 3} : Finset Nat), rW) := by
  have h := (claim_C5_baseline_filtering envOk rW ⟨"/tmp", "repoA"⟩ "d"
    (by decide) rfl rfl).1 "B" rfl (by decide)
  exact h.trans (congrArg (fun x => (Except.ok (x, rW) :
    Except RepoError (Finset Nat × BaseTrackedRepo Nat))) (by decide))

/-- C10: update overwrites only last_commit_hash: every other field of
the record, the storage handle included, is unchanged, both for a
direct update call and for the record scan returns (which mutates the
checkpoint only in the self-healing branch). -/
theorem claim_C10_update_frame {F Cfg : Type} [DecidableEq F]
    (env : ScanEnv F Cfg) (r r2 : BaseTrackedRepo Cfg) :
    (r.update env = .ok r2 →
      r2.repo = r.repo ∧ r2.plugin_config = r.plugin_config ∧
      r2.crontab = r.crontab ∧ r2.baseline_filename = r.baseline_filename ∧
      r2.exclude_regex = r.exclude_regex ∧ r2.storage = r.storage) ∧
    (∀ f : Finset F, r.scan env = .ok (f, r2) →
      r2.repo = r.repo ∧ r2.plugin_config = r.plugin_config ∧
      r2.crontab = r.crontab ∧ r2.baseline_filename = r.baseline_filename ∧
      r2.exclude_regex = r.exclude_regex ∧ r2.storage = r.storage) := by
  constructor
  · intro h
    cases hs : r.storage with
    | none => simp [BaseTrackedRepo.update, hs] at h
    | some st =>
      simp [BaseTrackedRepo.update, hs] at h
      subst h
      exact ⟨rfl, rfl, rfl, rfl, rfl, rfl⟩
  · intro f h
    cases hs : r.storage with
    | none => simp [BaseTrackedRepo.scan, hs] at h
    | some st =>
      cases hc2 : env.clone_ok with
      | false => simp [BaseTrackedRepo.scan, hs, hc2] at h
      | true =>
        cases hd : env.diff_since r.last_commit_hash with
        | none =>
          simp [BaseTrackedRepo.scan, hs, hc2, hd] at h
          obtain ⟨h3, h4⟩ := h
          subst h4
          exact ⟨rfl, rfl, rfl, rfl, rfl, rfl⟩
        | some d =>
          cases hb : env.baseline_file r.baseline_filename with
          | none =>
            simp [BaseTrackedRepo.scan, hs, hc2, hd, hb] at h
            obtain ⟨h3, h4⟩ := h
            subst h4
            exact ⟨rfl, rfl, rfl, rfl, rfl, hs⟩
          | some b =>
            by_cases hbe : b = ""
            · simp [BaseTrackedRepo.scan, hs, hc2, hd, hb, hbe] at h
              obtain ⟨h3, h4⟩ := h
              subst h4
              exact ⟨rfl, rfl, rfl, rfl, rfl, hs⟩
            · simp [BaseTrackedRepo.scan, hs, hc2, hd, hb, hbe] at h
              obtain ⟨h3, h4⟩ := h
              subst h4
              exact ⟨rfl, rfl, rfl, rfl, rfl, hs⟩

/-- Witness for C10: a concrete update, and a concrete self-healing
scan, both leave every field but last_commit_hash unchanged. -/
theorem claim_C10_update_frame_witness :
    ({ rW with last_commit_hash := "c2" } : BaseTrackedRepo Nat).repo = rW.repo ∧
    ({ rW with last_commit_hash := "c2" } : BaseTrackedRepo Nat).plugin_config =
      rW.plugin_config ∧
    ({ rW with last_commit_hash := "c2" } : BaseTrackedRepo Nat).crontab =
      rW.crontab ∧
    ({ rW with last_commit_hash := "c2" } : BaseTrackedRepo Nat).baseline_filename =
      rW.baseline_filename ∧
    ({ rW with last_commit_hash := "c2" } : BaseTrackedRepo Nat).exclude_regex =
      rW.exclude_regex ∧
    ({ rW with last_commit_hash := "c2" } : BaseTrackedRepo Nat).storage =
      rW.storage :=
  (claim_C10_update_frame envHeal rW { rW with last_commit_hash := "c2" }).1
    (by simp [BaseTrackedRepo.update, rW, BaseTrackedRepo.mk_repo, envHeal])

/-- Helper: with the ALWAYS policy, save always writes the dict under
the hashed name and reports success, whether or not a tracked file
already exists. -/
theorem save_always {Cfg C : Type} (encode : Cfg → C) (a : Bool)
    (store : Store C) (r : BaseTrackedRepo Cfg) (st : StorageHandle)
    (hs : r.storage = some st) :
    r.save encode a .ALWAYS store =
      .ok (true, store.put (hash_filename st.repository_name)
        (r.dict encode)) := by
  by_cases h2 : (store (hash_filename st.repository_name)).isSome
  · simp [BaseTrackedRepo.save, hs, h2]
  · simp [BaseTrackedRepo.save, hs, h2]

/-- C2: the override matrix of save.  With an initialized handle: if no
tracked file exists at the computed key, save writes and reports true
under every policy; if one exists, NEVER reports false and leaves the
store untouched, ASK_USER with answer no reports false and leaves the
store untouched, and ALWAYS, as well as ASK_USER with answer yes, write
the full serialized record under the key and report true. -/
theorem claim_C2_override_matrix {Cfg C : Type} (encode : Cfg → C)
    (ask_answer : Bool) (store : Store C) (r : BaseTrackedRepo Cfg)
    (st : StorageHandle) (hs : r.storage = some st) :
    (store (hash_filename st.repository_name) = none →
      ∀ level, r.save encode ask_answer level store =
        .ok (true, store.put (hash_filename st.repository_name)
          (r.dict encode))) ∧
    ((store (hash_filename st.repository_name)).isSome →
      r.save encode ask_answer .NEVER store = .ok (false, store)) ∧
    ((store (hash_filename st.repository_name)).isSome →
      r.save encode false .ASK_USER store = .ok (false, store)) ∧
    ((store (hash_filename st.repository_name)).isSome →
      r.save encode ask_answer .ALWAYS store =
        .ok (true, store.put (hash_filename st.repository_name)
          (r.dict encode))) ∧
    ((store (hash_filename st.repository_name)).isSome →
      r.save encode true .ASK_USER store =
        .ok (true, store.put (hash_filename st.repository_name)
          (r.dict encode))) := by
  refine ⟨?_, ?_, ?_, ?_, ?_⟩
  · intro h level
    simp [BaseTrackedRepo.save, hs, h]
  · intro h
    simp [BaseTrackedRepo.save, hs, h]
  · intro h
    simp [BaseTrackedRepo.save, hs, h]
  · intro h
    simp [BaseTrackedRepo.save, hs, h]
  · intro h
    simp [BaseTrackedRepo.save, hs, h]

/-- Witness for C2 at a concrete input: the NEVER row with an existing
tracked file. -/
theorem claim_C2_override_matrix_witness :
    rW.save (fun c => c + 1) true OverrideLevel.NEVER storeW =
      .ok (false, storeW) :=
  (claim_C2_override_matrix (fun c => c + 1) true storeW rW
    ⟨"/tmp", "repoA"⟩ (by decide)).2.1 (by decide)

/-- C3: save checks and puts under the hash of the record's identity
(the repo string), the same key load_from_file computes from that
identity: a save over an empty store populates exactly the slot of
hash_filename of the repo, and a load of the same identity then finds
it (it does not fail with the missing-file error and yields a
record). -/
theorem claim_C3_key_agreement {Cfg C : Type} (encode : Cfg → C)
    (decode : C → Cfg) (ask_answer : Bool) (level : OverrideLevel)
    (base : String) (r : BaseTrackedRepo Cfg) (st : StorageHandle)
    (hs : r.storage = some st) (hid : st.repo_url = r.repo) :
    ∃ store2,
      r.save encode ask_answer level (fun _ => none) = .ok (true, store2) ∧
      (∀ k, (store2 k).isSome ↔ k = hash_filename r.repo) ∧
      ∃ out, load_from_file decode r.repo base store2 = .ok out := by
  refine ⟨Store.put (fun _ => none) (hash_filename r.repo) (r.dict encode),
    ?_, ?_, ?_⟩
  · simp [BaseTrackedRepo.save, hs, StorageHandle.repository_name, hid]
  · intro k
    simp [Store.put]
  · refine ⟨⟨r.last_commit_hash, r.repo, r.crontab,
      decode (encode r.plugin_config), r.baseline_filename,
      r.exclude_regex, some ⟨base, r.repo⟩⟩, ?_⟩
    simp [load_from_file, Store.put, modify_tracked_file_contents,
      BaseTrackedRepo.dict, fromDict, getStr, getCfg, FieldValue.mapCfg,
      List.lookup, BaseTrackedRepo.mk_repo]

/-- Witness for C3 at the concrete fixture. -/
theorem claim_C3_key_agreement_witness :
    ∃ store2,
      rW.save (fun c => c + 1) true OverrideLevel.ALWAYS (fun _ => none) =
        .ok (true, store2) ∧
      (∀ k, (store2 k).isSome ↔ k = hash_filename rW.repo) ∧
      ∃ out, load_from_file (fun c => c - 1) rW.repo "/tmp" store2 = .ok out :=
  claim_C3_key_agreement (fun c => c + 1) (fun c => c - 1) true .ALWAYS
    "/tmp" rW ⟨"/tmp", "repoA"⟩ (by decide) rfl

/-- C6: the serialized form is a mapping whose keys are exactly sha,
repo, plugins, cron, baseline_filename and exclude_regex; the storage
handle never influences it (two records differing only in the handle
serialize identically), and each field carries exactly the
corresponding in-memory attribute, the plugin configuration in its
compact encoded form. -/
theorem claim_C6_persisted_fields {Cfg C : Type} (encode : Cfg → C)
    (r : BaseTrackedRepo Cfg) :
    (r.dict encode).map Prod.fst =
      ["sha", "repo", "plugins", "cron", "baseline_filename",
        "exclude_regex"] ∧
    (∀ s, (({ r with storage := s } : BaseTrackedRepo Cfg).dict encode) =
      r.dict encode) ∧
    r.dict encode =
      [("sha", .str r.last_commit_hash), ("repo", .str r.repo),
       ("plugins", .cfg (encode r.plugin_config)), ("cron", .str r.crontab),
       ("baseline_filename", .str r.baseline_filename),
       ("exclude_regex", .str r.exclude_regex)] :=
  ⟨rfl, fun _ => rfl, rfl⟩

/-- C7: assuming the codec round-trips the configuration, a freshly
constructed record that is saved (ALWAYS) and then loaded by its
identity from the same base directory yields a record equal to the
original, in particular in all six persisted fields. -/
theorem claim_C7_round_trip {Cfg C : Type} (encode : Cfg → C)
    (decode : C → Cfg) (repo sha : String) (plugins : Cfg)
    (bf er cron dir : String) (ask_answer : Bool) (store : Store C)
    (hrt : decode (encode plugins) = plugins) (hdir : dir ≠ "") :
    ∃ store2,
      (BaseTrackedRepo.mk_repo repo sha plugins bf er cron (some dir)).save
        encode ask_answer .ALWAYS store = .ok (true, store2) ∧
      load_from_file decode repo dir store2 =
        .ok (BaseTrackedRepo.mk_repo repo sha plugins bf er cron (some dir)) := by
  have hstor : (BaseTrackedRepo.mk_repo repo sha plugins bf er
      cron (some dir)).storage = some ⟨dir, repo⟩ := by
    simp [BaseTrackedRepo.mk_repo, hdir]
  refine ⟨_, save_always encode ask_answer store _ ⟨dir, repo⟩ hstor, ?_⟩
  simp [load_from_file, Store.put, StorageHandle.repository_name,
    modify_tracked_file_contents, BaseTrackedRepo.dict, fromDict, getStr,
    getCfg, FieldValue.mapCfg, List.lookup, BaseTrackedRepo.mk_repo, hdir,
    hrt]

/-- Witness for C7 at a concrete input, with an encode that shifts the
configuration and a decode that shifts it back. -/
theorem claim_C7_round_trip_witness :
    ∃ store2,
      (BaseTrackedRepo.mk_repo "repoA" "c1" (7 : Nat) "baseline" "ex" "cron"
        (some "/tmp")).save (fun c => c + 1) true .ALWAYS (fun _ => none) =
        .ok (true, store2) ∧
      load_from_file (fun c => c - 1) "repoA" "/tmp" store2 =
        .ok (BaseTrackedRepo.mk_repo "repoA" "c1" (7 : Nat) "baseline" "ex"
          "cron" (some "/tmp")) :=
  claim_C7_round_trip (fun c => c + 1) (fun c => c - 1) "repoA" "c1" 7
    "baseline" "ex" "cron" "/tmp" true (fun _ => none) (by decide) (by decide)

/-- C8: a record constructed without a truthy base_temp_dir has no
storage handle, and scan, update, save and name all fail fast with the
not-initialized error instead of setting one up or succeeding. -/
theorem claim_C8_fail_fast {F Cfg C : Type} [DecidableEq F]
    (env : ScanEnv F Cfg) (encode : Cfg → C) (ask_answer : Bool)
    (level : OverrideLevel) (store : Store C) (repo sha : String)
    (plugins : Cfg) (bf er cron : String) (btd : Option String)
    (hbt : btd = none ∨ btd = some "") :
    (BaseTrackedRepo.mk_repo repo sha plugins bf er cron
      btd).storage = none ∧
    (BaseTrackedRepo.mk_repo repo sha plugins bf er cron btd).scan env =
      .error .notInitializedError ∧
    (BaseTrackedRepo.mk_repo repo sha plugins bf er cron
      btd).update env = .error .notInitializedError ∧
    (BaseTrackedRepo.mk_repo repo sha plugins bf er cron btd).save encode
      ask_answer level store = .error .notInitializedError ∧
    (BaseTrackedRepo.mk_repo repo sha plugins bf er cron
      btd).name = .error .notInitializedError := by
  have hstor : (BaseTrackedRepo.mk_repo repo sha plugins bf er
      cron btd).storage = none := by
    rcases hbt with h | h <;> simp [BaseTrackedRepo.mk_repo, h]
  exact ⟨hstor,
    by simp [BaseTrackedRepo.scan, hstor],
    by simp [BaseTrackedRepo.update, hstor],
    by simp [BaseTrackedRepo.save, hstor],
    by simp [BaseTrackedRepo.name, hstor]⟩

/-- Witness for C8 at a concrete input with base_temp_dir omitted. -/
theorem claim_C8_fail_fast_witness :
    (BaseTrackedRepo.mk_repo "repoA" "c1" (7 : Nat) "baseline" "ex"
      "cron" none).storage = none ∧
    (BaseTrackedRepo.mk_repo "repoA" "c1" (7 : Nat) "baseline" "ex" "cron"
      none).scan envOk = .error .notInitializedError ∧
    (BaseTrackedRepo.mk_repo "repoA" "c1" (7 : Nat) "baseline" "ex"
      "cron" none).update envOk = .error .notInitializedError ∧
    (BaseTrackedRepo.mk_repo "repoA" "c1" (7 : Nat) "baseline" "ex" "cron"
      none).save (fun c => c + 1) true .ASK_USER storeW =
      .error .notInitializedError ∧
    (BaseTrackedRepo.mk_repo "repoA" "c1" (7 : Nat) "baseline" "ex"
      "cron" none).name = .error .notInitializedError :=
  claim_C8_fail_fast envOk (fun c => c + 1) true .ASK_USER storeW "repoA"
    "c1" 7 "baseline" "ex" "cron" none (Or.inl rfl)

/-- C9: loading an identity with no persisted record at its computed
key fails with the missing-file error, and no record is produced. -/
theorem claim_C9_load_missing {Cfg C : Type} (decode : C → Cfg)
    (repo_name base : String) (store : Store C)
    (h : store (hash_filename repo_name) = none) :
    load_from_file decode repo_name base store =
      .error .fileNotFoundError := by
  simp [load_from_file, h]

/-- Witness for C9 at a concrete input: the empty store. -/
theorem claim_C9_load_missing_witness :
    load_from_file (fun c : Nat => c - 1) "repoA" "/tmp"
      (fun _ => none) = .error .fileNotFoundError :=
  claim_C9_load_missing (fun c => c - 1) "repoA" "/tmp" (fun _ => none) rfl

end DetectSecretsServer
